import Mathlib

/-!
# Verification of the PDF Q&A chatbot (RAG + FAISS) against its specification

The repository's visible source is the React frontend (`chatbot_react.js`).
Its event handlers (`handleFileChange`, `handleUpload`, `handleAskQuestion`,
`handleReset`) and the `disabled` conditions of its controls are embedded
below as pure functions on an explicit component-state record, with the
outcome of each HTTP request passed in as a parameter (success payload or
error message) and `alert` calls collected as an output list.

The Flask backend (`app.py`: text segmenter, vector index, retriever,
session state machine) is part of the repository but not among the visible
sources, so those components are modelled from the specification's words;
each such definition carries a doc comment starting `Modelled from the
spec:`.  Similarity scores are modelled over `ℚ` (an idealisation of the
floating-point vectors).
-/

namespace PdfQa

/-! ## Error taxonomy (spec §7) -/

/-- Modelled from the spec: the error taxonomy of §7 (the backend `app.py`
is not among the visible sources). -/
inductive RagError where
  | configError
  | emptyInputError
  | embeddingError
  | gatewayTimeoutError
  | dimensionMismatchError
  | noDocumentError
  | synthesisError
deriving DecidableEq, Repr

/-! ## Frontend data shapes (from `chatbot_react.js`) -/

/-- A cited source as rendered by the frontend: `{page, content}`. -/
structure Source where
  page : Int
  content : String
deriving DecidableEq, Repr

/-- The `type` tag of a chat message (`system`, `user`, `bot`, `error`). -/
inductive MsgType where
  | system
  | user
  | bot
  | error
deriving DecidableEq, Repr

/-- One entry of the `messages` state array.  `sources` is present only on
bot messages (JS objects simply lack the field otherwise). -/
structure Message where
  type : MsgType
  content : String
  sources : Option (List Source)
deriving DecidableEq, Repr

/-- The JSON body of a successful `/upload` response as the frontend reads
it: `response.data.filename`, `response.data.pages`, `response.data.chunks`. -/
structure UploadResponse where
  filename : String
  pages : Int
  chunks : Int
deriving DecidableEq, Repr

/-- The React component state: the seven `useState` hooks of `App`. -/
structure AppState where
  file : Option String
  uploading : Bool
  pdfUploaded : Bool
  messages : List Message
  question : String
  loading : Bool
  uploadInfo : Option UploadResponse
deriving DecidableEq, Repr

/-- The initial component state: `useState(null)`, `useState(false)`,
`useState(false)`, `useState([])`, `useState('')`, `useState(false)`,
`useState(null)`. -/
def initialAppState : AppState :=
  { file := none, uploading := false, pdfUploaded := false, messages := []
    question := "", loading := false, uploadInfo := none }

/-- Outcome of the `/upload` POST as observed by `handleUpload`: either the
response data or the error message string shown in the alert. -/
inductive UploadOutcome where
  | success (resp : UploadResponse)
  | failure (err : String)
deriving DecidableEq, Repr

/-- Outcome of the `/ask` POST as observed by `handleAskQuestion`. -/
inductive AskOutcome where
  | success (answer : String) (sources : List Source)
  | failure (err : String)
deriving DecidableEq, Repr

/-- The system confirmation message built by `handleUpload` from
`response.data.pages` and `response.data.chunks`. -/
def confirmMessage (pages chunks : Int) : String :=
  "✅ PDF processed successfully! " ++ toString pages ++ " pages, "
    ++ toString chunks ++ " chunks created. You can now ask questions."

/-- `handleUpload` from `chatbot_react.js`: returns the resulting component
state and the list of `alert` messages raised.  With no file selected it
alerts and returns; on success it sets `pdfUploaded`, `uploadInfo` and
replaces `messages` with the confirmation; on failure it only alerts
(`finally` clears `uploading` in both request branches). -/
def handleUpload (s : AppState) (o : UploadOutcome) : AppState × List String :=
  match s.file with
  | none => (s, ["Please select a PDF file first"])
  | some _ =>
    match o with
    | .success resp =>
      ({ s with uploading := false, pdfUploaded := true, uploadInfo := some resp
                messages := [⟨.system, confirmMessage resp.pages resp.chunks, none⟩] }, [])
    | .failure err =>
      ({ s with uploading := false }, ["Error uploading PDF: " ++ err])

/-- The JS `String.prototype.trim()`: strips leading and trailing
whitespace (embedded structurally so that it evaluates in proofs). -/
def jsTrim (s : String) : String :=
  String.mk (((s.data.dropWhile Char.isWhitespace).reverse.dropWhile
      Char.isWhitespace).reverse)

/-- `handleAskQuestion` from `chatbot_react.js`: returns the resulting
state, the alerts raised, and whether the `/ask` request was sent.  A blank
(`!question.trim()`) question returns silently; with no PDF uploaded it
alerts and returns; otherwise it appends the user message, clears the
input, sends the request, and appends the bot answer or an error message. -/
def handleAskQuestion (s : AppState) (o : AskOutcome) : AppState × List String × Bool :=
  if jsTrim s.question = "" then (s, [], false)
  else if s.pdfUploaded = false then (s, ["Please upload a PDF first"], false)
  else
    match o with
    | .success ans srcs =>
      ({ s with messages := s.messages ++ [⟨.user, s.question, none⟩, ⟨.bot, ans, some srcs⟩]
                question := "", loading := false }, [], true)
    | .failure err =>
      ({ s with messages := s.messages ++ [⟨.user, s.question, none⟩,
                                           ⟨.error, "Error: " ++ err, none⟩]
                question := "", loading := false }, [], true)

/-- `handleReset` from `chatbot_react.js`: on a successful `/reset` POST it
restores `file`, `pdfUploaded`, `messages`, `uploadInfo`, `question` to
their initial values; on failure it alerts and changes nothing. -/
def handleReset (s : AppState) : Except String Unit → AppState × List String
  | .ok _ =>
    ({ s with file := none, pdfUploaded := false, messages := []
              uploadInfo := none, question := "" }, [])
  | .error m => (s, ["Error resetting: " ++ m])

/-- The `disabled` condition of the file `<input>`:
`uploading || pdfUploaded`. -/
def fileInputDisabled (s : AppState) : Bool :=
  s.uploading || s.pdfUploaded

/-- The `disabled` condition of the upload button:
`!file || uploading || pdfUploaded`. -/
def uploadButtonDisabled (s : AppState) : Bool :=
  s.file.isNone || s.uploading || s.pdfUploaded

/-- The `disabled` condition of the ask submit button:
`!pdfUploaded || loading || !question.trim()`. -/
def askSubmitDisabled (s : AppState) : Bool :=
  !s.pdfUploaded || s.loading || (jsTrim s.question == "")

/-! ## Text Segmenter (spec §4.1) -/

/-- Modelled from the spec: the chunking loop of `segment` (§4.1), with
every character offset treated as a breakpoint (the spec only *prefers*
natural breakpoints; clipping "to the nearest breakpoint ≥ the raw offset"
is then the identity).  Each chunk takes `maxChunk` characters and the next
chunk starts `overlap` characters before the previous chunk's end, i.e.
`step = maxChunk - overlap` characters later.  `fuel` bounds the recursion
and is instantiated with the text length. -/
def chunkFuel : Nat → List Char → Nat → Nat → List (List Char)
  | 0, _, _, _ => []
  | fuel + 1, text, maxChunk, step =>
    if text.length ≤ maxChunk then [text]
    else text.take maxChunk :: chunkFuel fuel (text.drop step) maxChunk step

/-- Modelled from the spec: `segment(document_text, config)` (§4.1; the
backend `app.py` is not among the visible sources).  Fails with
`ConfigError` unless `overlap < max_chunk_size`; zero-length or
whitespace-only input produces zero chunks; otherwise greedy fixed-window
chunking with the configured overlap. -/
def segment (text : List Char) (maxChunk overlap : Nat) :
    Except RagError (List (List Char)) :=
  if maxChunk ≤ overlap then .error .configError
  else if text.all Char.isWhitespace then .ok []
  else .ok (chunkFuel text.length text maxChunk (maxChunk - overlap))

/-- Concatenation of chunks after removing the configured overlap from the
front of every chunk but the first (the spec's "removing the configured
overlap" round-trip reading). -/
def joinOverlap (overlap : Nat) : List (List Char) → List Char
  | [] => []
  | c :: cs => c ++ (cs.map (List.drop overlap)).flatten

/-! ## Vector Index (spec §4.2) -/

/-- Dot product of two vectors (over `ℚ`, idealising the float vectors).
On vectors normalized before insertion and before querying, cosine
similarity reduces to this (spec §4.2). -/
def dot (v w : List ℚ) : ℚ :=
  (List.zipWith (· * ·) v w).sum

/-- A vector is normalized when its self-dot-product (squared norm) is 1. -/
def isNormalized (v : List ℚ) : Prop :=
  dot v v = 1

instance (v : List ℚ) : Decidable (isNormalized v) := by
  unfold isNormalized
  infer_instance

/-- A chunk ready for indexing: payload (page, text) plus its embedding. -/
structure ChunkRecord where
  page : Nat
  content : String
  vec : List ℚ
deriving DecidableEq, Repr

/-- One entry of the Vector Index: chunk id plus vector and payload. -/
structure IndexEntry where
  chunkId : Nat
  page : Nat
  content : String
  vec : List ℚ
deriving DecidableEq, Repr

/-- Modelled from the spec: `build(chunks_with_vectors)` (§4.2; the backend
`app.py` is not among the visible sources).  Chunk ids are unique within
the document and follow insertion order (§3), so `build` assigns them by
position. -/
def build (recs : List ChunkRecord) : List IndexEntry :=
  recs.enum.map fun p => ⟨p.1, p.2.page, p.2.content, p.2.vec⟩

/-- One `search` result: `(chunk_id, score)` plus the payload the Retriever
passes on. -/
structure SearchHit where
  chunkId : Nat
  score : ℚ
  page : Nat
  content : String
deriving DecidableEq, Repr

/-- The search result order of §4.2: descending similarity score, ties
broken by lower chunk id. -/
def hitOrder (a b : SearchHit) : Prop :=
  b.score < a.score ∨ (a.score = b.score ∧ a.chunkId ≤ b.chunkId)

instance : DecidableRel hitOrder := fun a b => by
  unfold hitOrder
  infer_instance

instance : IsTotal SearchHit hitOrder where
  total a b := by
    unfold hitOrder
    rcases lt_trichotomy a.score b.score with h | h | h
    · exact Or.inr (Or.inl h)
    · rcases Nat.le_total a.chunkId b.chunkId with hc | hc
      · exact Or.inl (Or.inr ⟨h, hc⟩)
      · exact Or.inr (Or.inr ⟨h.symm, hc⟩)
    · exact Or.inl (Or.inl h)

instance : IsTrans SearchHit hitOrder where
  trans a b c hab hbc := by
    unfold hitOrder at hab hbc ⊢
    rcases hab with h1 | ⟨e1, l1⟩ <;> rcases hbc with h2 | ⟨e2, l2⟩
    · exact Or.inl (h2.trans h1)
    · exact Or.inl (by rw [← e2]; exact h1)
    · exact Or.inl (by rw [e1]; exact h2)
    · exact Or.inr ⟨e1.trans e2, l1.trans l2⟩

/-- Scoring pass of `search`: every index entry paired with its dot-product
similarity against the query vector. -/
def scoreHits (entries : List IndexEntry) (qv : List ℚ) : List SearchHit :=
  entries.map fun e => ⟨e.chunkId, dot qv e.vec, e.page, e.content⟩

/-- Modelled from the spec: `search(query_vector, k)` (§4.2).  Scores every
entry by dot product with the query vector, sorts by descending score with
ties broken by ascending chunk id, and clamps `k` by taking at most `k`
results (an index smaller than `k` yields all entries, not an error). -/
def search (entries : List IndexEntry) (qv : List ℚ) (k : Nat) : List SearchHit :=
  (List.insertionSort hitOrder (scoreHits entries qv)).take k

/-! ## Retriever and answer orchestration (spec §4.3, §4.4) -/

/-- Modelled from the spec: the Retriever's score floor (§4.3): results
scoring below `min_score` are filtered out, preserving the Vector Index's
ordering; no re-ranking beyond the filter. -/
def filterByMinScore (minScore : ℚ) (hits : List SearchHit) : List SearchHit :=
  hits.filter fun p => decide (minScore ≤ p.score)

/-- The fixed "insufficient context" response of §4.4. -/
def insufficientContextAnswer : String :=
  "Insufficient context in the document to answer this question."

/-- The ask result of §6: `{answer, sources}`, extended with a flag
recording whether the external Answer Synthesizer was invoked (so that the
short-circuit of §4.4 is observable in the model). -/
structure AskResult where
  answer : String
  sources : List Source
  synthesizerInvoked : Bool
deriving DecidableEq, Repr

/-- Modelled from the spec: the §4.4 orchestration around the external
Answer Synthesizer `synth` (which returns an answer and a list of cited
chunk ids).  If `passages` is empty the orchestration short-circuits with
the fixed "insufficient context" response and never calls `synth`;
otherwise it calls `synth` and keeps only cited sources whose ids
correspond to supplied passages (the defensive citation check). -/
def orchestrateAsk (synth : String → List SearchHit → String × List Nat)
    (q : String) (passages : List SearchHit) : AskResult :=
  if passages.isEmpty then
    ⟨insufficientContextAnswer, [], false⟩
  else
    let r := synth q passages
    ⟨r.1, (passages.filter fun p => r.2.contains p.chunkId).map
        fun p => ⟨(p.page : Int), p.content⟩, true⟩

/-! ## Session / orchestration state machine (spec §4.5) -/

/-- The active document of an `INDEXED` session: page count plus the fully
built Vector Index. -/
structure DocumentIndex where
  pages : Nat
  entries : List IndexEntry
deriving DecidableEq, Repr

/-- Modelled from the spec: the Session states `EMPTY` and `INDEXED`
(§4.5). -/
inductive Session where
  | empty
  | indexed (doc : DocumentIndex)
deriving DecidableEq, Repr

/-- The upload result shape of §6: `{pages: int, chunks: int}`. -/
structure UploadResult where
  pages : Nat
  chunks : Nat
deriving DecidableEq, Repr

/-- Modelled from the spec: all-or-nothing batch embedding during upload
(§5): the first chunk on which the Embedding Gateway fails aborts the whole
batch. -/
def embedAll (embed : List Char → Except RagError (List ℚ)) :
    List (List Char) → Except RagError (List (List ℚ))
  | [] => .ok []
  | c :: cs =>
    match embed c with
    | .error e => .error e
    | .ok v =>
      match embedAll embed cs with
      | .error e => .error e
      | .ok vs => .ok (v :: vs)

/-- Modelled from the spec: `upload(document)` (§4.5; the backend `app.py`
is not among the visible sources).  The prior session `s` is torn down
first (re-upload implicitly resets), then Segmenter → Embedding Gateway
(batch) → Vector Index `build` run; the transition to `INDEXED` is atomic:
on any failure the resulting session is `EMPTY` and the typed error is
reported, on full success the result is `{pages, chunks}`.  `pageOf`
attributes chunk `i` to a page, standing for the page-boundary map supplied
by the external text-extraction collaborator (§6). -/
def uploadSession (s : Session) (text : List Char) (pages maxChunk overlap : Nat)
    (pageOf : Nat → Nat)
    (embed : List Char → Except RagError (List ℚ)) :
    Session × Except RagError UploadResult :=
  match s, segment text maxChunk overlap with
  | _, .error e => (.empty, .error e)
  | _, .ok chunks =>
    match embedAll embed chunks with
    | .error e => (.empty, .error e)
    | .ok vecs =>
      let recs := (chunks.zip vecs).enum.map
        fun p => ChunkRecord.mk (pageOf p.1) (String.mk p.2.1) p.2.2
      (.indexed ⟨pages, build recs⟩, .ok ⟨pages, chunks.length⟩)

/-- Modelled from the spec: `ask(question)` (§4.5): fails with
`NoDocumentError` from `EMPTY`; from `INDEXED` it embeds the query, runs
Vector Index `search`, applies the Retriever's `min_score` filter, and runs
the §4.4 orchestration.  The boolean records whether the Vector Index was
accessed.  The Session is not mutated (no session is returned). -/
def askSession (synth : String → List SearchHit → String × List Nat)
    (embedQ : String → Except RagError (List ℚ)) (k : Nat) (minScore : ℚ)
    (s : Session) (q : String) : Except RagError AskResult × Bool :=
  match s with
  | .empty => (.error .noDocumentError, false)
  | .indexed doc =>
    match embedQ q with
    | .error e => (.error e, false)
    | .ok qv =>
      (.ok (orchestrateAsk synth q
        (filterByMinScore minScore (search doc.entries qv k))), true)

/-- Modelled from the spec: `reset()` (§4.5): valid from any state, clears
the Document, Vector Index and transient conversation turns, and always
acknowledges success (the boolean). -/
def resetSession (s : Session) : Session × Bool :=
  (Session.empty, true)

/-! ## Helper lemmas -/

lemma chunkFuel_map_drop_join (maxChunk overlap : Nat) (hov : overlap < maxChunk) :
    ∀ fuel text, List.length text ≤ fuel →
      ((chunkFuel fuel text maxChunk (maxChunk - overlap)).map
          (List.drop overlap)).flatten = text.drop overlap := by
  intro fuel
  induction fuel with
  | zero =>
    intro text ht
    have : text = [] := List.eq_nil_of_length_eq_zero (Nat.le_zero.mp ht)
    subst this
    simp [chunkFuel]
  | succ fuel ih =>
    intro text ht
    by_cases h : text.length ≤ maxChunk
    · simp [chunkFuel, h]
    · have hstep : 0 < maxChunk - overlap := Nat.sub_pos_of_lt hov
      have hlen : (text.drop (maxChunk - overlap)).length ≤ fuel := by
        rw [List.length_drop]
        omega
      rw [chunkFuel, if_neg h]
      rw [List.map_cons, List.flatten_cons, ih _ hlen]
      rw [List.drop_drop]
      have hmax : maxChunk - overlap + overlap = maxChunk := by omega
      rw [hmax, List.drop_take]
      have hdd : List.drop maxChunk text
          = List.drop (maxChunk - overlap) (List.drop overlap text) := by
        rw [List.drop_drop]
        congr 1
        omega
      rw [hdd]
      exact List.take_append_drop _ _

lemma chunkFuel_roundTrip (maxChunk overlap : Nat) (hov : overlap < maxChunk) :
    ∀ fuel text, List.length text ≤ fuel → text ≠ [] →
      joinOverlap overlap (chunkFuel fuel text maxChunk (maxChunk - overlap)) = text := by
  intro fuel text ht hne
  match fuel with
  | 0 =>
    exact absurd (List.eq_nil_of_length_eq_zero (Nat.le_zero.mp ht)) hne
  | fuel + 1 =>
    by_cases h : text.length ≤ maxChunk
    · simp [chunkFuel, h, joinOverlap]
    · have hlen : (text.drop (maxChunk - overlap)).length ≤ fuel := by
        rw [List.length_drop]
        omega
      rw [chunkFuel, if_neg h, joinOverlap]
      rw [chunkFuel_map_drop_join maxChunk overlap hov fuel _ hlen]
      rw [List.drop_drop]
      have hmax : maxChunk - overlap + overlap = maxChunk := by omega
      rw [hmax]
      exact List.take_append_drop _ _


lemma pairwise_conj {α : Type} {R S : α → α → Prop} :
    ∀ {l : List α}, l.Pairwise R → l.Pairwise S →
      l.Pairwise fun a b => R a b ∧ S a b := by
  intro l
  induction l with
  | nil =>
    intro _ _
    exact List.Pairwise.nil
  | cons a l ih =>
    intro hR hS
    rcases List.pairwise_cons.mp hR with ⟨hRa, hRl⟩
    rcases List.pairwise_cons.mp hS with ⟨hSa, hSl⟩
    exact List.pairwise_cons.mpr ⟨fun b hb => ⟨hRa b hb, hSa b hb⟩, ih hRl hSl⟩

lemma search_chunkIds_nodup (recs : List ChunkRecord) (qv : List ℚ) :
    ((List.insertionSort hitOrder (scoreHits (build recs) qv)).map
      SearchHit.chunkId).Nodup := by
  have hperm : List.Perm
      ((List.insertionSort hitOrder (scoreHits (build recs) qv)).map SearchHit.chunkId)
      ((scoreHits (build recs) qv).map SearchHit.chunkId) :=
    (List.perm_insertionSort hitOrder _).map _
  rw [hperm.nodup_iff]
  have hids : (scoreHits (build recs) qv).map SearchHit.chunkId
      = recs.enum.map Prod.fst := by
    rw [scoreHits, build, List.map_map, List.map_map]
    exact List.map_congr_left fun p _ => rfl
  rw [hids]
  exact List.nodup_enum_map_fst recs

/-! ## Claim theorems -/

/-- C1: when a step fails after segmentation begins (here: the batch
embedding fails), `upload` leaves the Session `EMPTY` with no partially
built index, reports the failure to the caller, and a subsequent `ask`
fails with `NoDocumentError` without touching the Vector Index; on the
client, a failed upload leaves `pdfUploaded` false, `uploadInfo` null and
the message list unchanged (alerting the error instead). -/
theorem upload_partial_failure_atomic
    (s : Session) (text : List Char) (pages maxChunk overlap : Nat)
    (pageOf : Nat → Nat) (embed : List Char → Except RagError (List ℚ))
    (chunks : List (List Char)) (e : RagError)
    (synth : String → List SearchHit → String × List Nat)
    (embedQ : String → Except RagError (List ℚ)) (k : Nat) (minScore : ℚ)
    (q : String) (fs : AppState) (f : String) (err : String)
    (hseg : segment text maxChunk overlap = .ok chunks)
    (hemb : embedAll embed chunks = .error e)
    (hfile : fs.file = some f) (hpu : fs.pdfUploaded = false)
    (hui : fs.uploadInfo = none) :
    uploadSession s text pages maxChunk overlap pageOf embed
        = (Session.empty, .error e) ∧
    askSession synth embedQ k minScore Session.empty q
        = (.error .noDocumentError, false) ∧
    (handleUpload fs (.failure err)).1.pdfUploaded = false ∧
    (handleUpload fs (.failure err)).1.uploadInfo = none ∧
    (handleUpload fs (.failure err)).1.messages = fs.messages ∧
    (handleUpload fs (.failure err)).2 = ["Error uploading PDF: " ++ err] := by
  refine ⟨?_, rfl, ?_, ?_, ?_, ?_⟩
  · simp [uploadSession, hseg, hemb]
  · simp [handleUpload, hfile, hpu]
  · simp [handleUpload, hfile, hui]
  · simp [handleUpload, hfile]
  · simp [handleUpload, hfile]

/-- C1 witness: a 5-character document chunked into 2 chunks with the
gateway failing on the first chunk: the upload ends `EMPTY` with the error
reported. -/
theorem upload_partial_failure_atomic_witness :
    uploadSession Session.empty ['a', 'b', 'c', 'd', 'e'] 1 3 1 (fun _ => 1)
        (fun c => if c.length = 3 then .error .embeddingError else .ok [(1 : ℚ)])
      = (Session.empty, .error .embeddingError) :=
  (upload_partial_failure_atomic Session.empty ['a', 'b', 'c', 'd', 'e'] 1 3 1
      (fun _ => 1)
      (fun c => if c.length = 3 then .error .embeddingError else .ok [(1 : ℚ)])
      [['a', 'b', 'c'], ['c', 'd', 'e']] .embeddingError
      (fun _ _ => ("", [])) (fun _ => .ok []) 1 0 "q"
      { initialAppState with file := some "doc.pdf" } "doc.pdf" "boom"
      rfl rfl rfl rfl rfl).1

/-- C2 counterexample: with `pdfUploaded` false but a blank question the ask
handler returns *without* alerting (the blank-question guard precedes the
`pdfUploaded` check), refuting "returns after alerting"; no request is sent
and the state is unchanged. -/
theorem ask_empty_alert_counterexample :
    handleAskQuestion initialAppState (.failure "x") = (initialAppState, [], false) ∧
    initialAppState.pdfUploaded = false := by
  constructor
  · rfl
  · rfl

/-- C2 (amended): `ask` issued while the Session is `EMPTY` fails with
`NoDocumentError` and performs no Vector Index access; in the frontend,
when `pdfUploaded` is false the handler sends no request and appends no
message, alerting exactly when the question is non-blank (a blank question
returns silently before the `pdfUploaded` check). -/
theorem ask_empty_noDocument
    (synth : String → List SearchHit → String × List Nat)
    (embedQ : String → Except RagError (List ℚ)) (k : Nat) (minScore : ℚ)
    (q : String) (fs : AppState) (o : AskOutcome)
    (hp : fs.pdfUploaded = false) :
    askSession synth embedQ k minScore Session.empty q
        = (.error .noDocumentError, false) ∧
    handleAskQuestion fs o =
      (fs, (if jsTrim fs.question = "" then []
            else ["Please upload a PDF first"]), false) := by
  refine ⟨rfl, ?_⟩
  by_cases h : jsTrim fs.question = "" <;> simp [handleAskQuestion, h, hp]

/-- C2 witness: a non-blank question with no PDF uploaded alerts and sends
no request. -/
theorem ask_empty_noDocument_witness :
    handleAskQuestion { initialAppState with question := "hi" } (.failure "x")
      = ({ initialAppState with question := "hi" },
         ["Please upload a PDF first"], false) := by
  have h := (ask_empty_noDocument (fun _ _ => ("", [])) (fun _ => .ok []) 1 0 "q"
      { initialAppState with question := "hi" } (.failure "x") rfl).2
  rw [if_neg (by decide)] at h
  exact h

/-- C3 counterexample: a whitespace-only document produces zero chunks
(§4.1), so concatenating the chunks rebuilds the empty text, not the
original one-space text, under the valid config `max_chunk_size = 2`,
`overlap = 0`. -/
theorem segment_roundTrip_counterexample :
    segment [' '] 2 0 = .ok [] ∧ joinOverlap 0 [] ≠ [' '] := by
  constructor
  · rfl
  · decide

/-- C3 (amended): for every valid chunking config and every document text
that is empty or contains at least one non-whitespace character,
concatenating the chunks produced by `segment`, after removing the
configured overlap between consecutive chunks, reconstructs the text
exactly (whitespace-only nonempty input produces zero chunks per §4.1 and
is excluded). -/
theorem segment_roundTrip (text : List Char) (maxChunk overlap : Nat)
    (hov : overlap < maxChunk)
    (hnw : text = [] ∨ text.all Char.isWhitespace = false) :
    ∃ chunks, segment text maxChunk overlap = .ok chunks ∧
      joinOverlap overlap chunks = text := by
  rcases hnw with rfl | hws
  · refine ⟨[], ?_, rfl⟩
    simp [segment, Nat.not_le.mpr hov]
  · refine ⟨chunkFuel text.length text maxChunk (maxChunk - overlap), ?_, ?_⟩
    · simp [segment, Nat.not_le.mpr hov, hws]
    · have hne : text ≠ [] := by
        intro h
        rw [h] at hws
        simp at hws
      exact chunkFuel_roundTrip maxChunk overlap hov text.length text le_rfl hne

/-- C3 witness: "abcde" with `max_chunk_size = 3`, `overlap = 1` chunks to
["abc", "cde"] and round-trips. -/
theorem segment_roundTrip_witness :
    ∃ chunks, segment ['a', 'b', 'c', 'd', 'e'] 3 1 = .ok chunks ∧
      joinOverlap 1 chunks = ['a', 'b', 'c', 'd', 'e'] :=
  segment_roundTrip ['a', 'b', 'c', 'd', 'e'] 3 1 (by decide) (Or.inr (by decide))

/-- C4: on an index built from normalized vectors, `search` returns
results ordered by non-increasing similarity score, and entries with equal
score appear in ascending chunk-id order. -/
theorem search_build_sorted (recs : List ChunkRecord) (qv : List ℚ) (k : Nat)
    (hnorm : ∀ r ∈ recs, isNormalized r.vec) :
    (search (build recs) qv k).Pairwise fun a b =>
      b.score ≤ a.score ∧ (a.score = b.score → a.chunkId < b.chunkId) := by
  have hsorted : (List.insertionSort hitOrder (scoreHits (build recs) qv)).Pairwise
      hitOrder :=
    List.sorted_insertionSort hitOrder _
  have hne : (List.insertionSort hitOrder (scoreHits (build recs) qv)).Pairwise
      fun a b => a.chunkId ≠ b.chunkId :=
    List.pairwise_map.mp (search_chunkIds_nodup recs qv)
  have hconj := pairwise_conj hsorted hne
  have himp : ∀ a b : SearchHit,
      (hitOrder a b ∧ a.chunkId ≠ b.chunkId) →
        (b.score ≤ a.score ∧ (a.score = b.score → a.chunkId < b.chunkId)) := by
    intro a b hab
    rcases hab with ⟨hord, hid⟩
    rcases hord with hlt | ⟨heq, hle⟩
    · refine ⟨hlt.le, fun heq2 => ?_⟩
      rw [heq2] at hlt
      exact absurd hlt (lt_irrefl _)
    · exact ⟨heq.ge, fun _ => lt_of_le_of_ne hle hid⟩
  have hall := hconj.imp fun hab => himp _ _ hab
  exact hall.sublist (List.take_sublist k _)

/-- C4 witness: two normalized 2-dimensional vectors queried with `[1, 0]`
give strictly ordered scores. -/
theorem search_build_sorted_witness :
    (search (build [⟨1, "a", [0, 1]⟩, ⟨1, "b", [1, 0]⟩]) [1, 0] 2).Pairwise
      fun a b => b.score ≤ a.score ∧ (a.score = b.score → a.chunkId < b.chunkId) :=
  search_build_sorted [⟨1, "a", [0, 1]⟩, ⟨1, "b", [1, 0]⟩] [1, 0] 2 (by
    intro r hr
    fin_cases hr <;> norm_num [isNormalized, dot, List.zipWith])

/-- C5: when every retrieved result scores below `min_score` the filtered
passage sequence is empty and the orchestration returns the fixed
"insufficient context" answer with empty sources, never invoking the
Answer Synthesizer. -/
theorem ask_insufficient_context
    (synth : String → List SearchHit → String × List Nat)
    (q : String) (minScore : ℚ) (hits : List SearchHit)
    (h : ∀ p ∈ hits, p.score < minScore) :
    orchestrateAsk synth q (filterByMinScore minScore hits)
      = ⟨insufficientContextAnswer, [], false⟩ := by
  have hnil : filterByMinScore minScore hits = [] := by
    rw [filterByMinScore]
    rw [List.filter_eq_nil_iff]
    intro p hp
    simp only [decide_eq_true_eq]
    exact not_le.mpr (h p hp)
  rw [hnil]
  rfl

/-- C5 witness: a single hit scoring 0 under `min_score = 1` short-circuits
to the fixed response. -/
theorem ask_insufficient_context_witness :
    orchestrateAsk (fun _ _ => ("ans", [0])) "q"
        (filterByMinScore 1 [⟨0, 0, 1, "t"⟩])
      = ⟨insufficientContextAnswer, [], false⟩ :=
  ask_insufficient_context (fun _ _ => ("ans", [0])) "q" 1
    [⟨0, 0, 1, "t"⟩] (by decide)

/-- C6: `reset` succeeds from every Session state, always yields `EMPTY`,
is idempotent (a second consecutive reset, and reset from `EMPTY`, are
successful no-ops); in the frontend `handleReset` restores `file`,
`pdfUploaded`, `messages`, `uploadInfo` and `question` to their initial
values. -/
theorem reset_idempotent (s : Session) (fs : AppState) :
    (resetSession s).2 = true ∧
    (resetSession s).1 = Session.empty ∧
    resetSession (resetSession s).1 = resetSession s ∧
    resetSession Session.empty = (Session.empty, true) ∧
    (handleReset fs (.ok ())).1.file = initialAppState.file ∧
    (handleReset fs (.ok ())).1.pdfUploaded = initialAppState.pdfUploaded ∧
    (handleReset fs (.ok ())).1.messages = initialAppState.messages ∧
    (handleReset fs (.ok ())).1.uploadInfo = initialAppState.uploadInfo ∧
    (handleReset fs (.ok ())).1.question = initialAppState.question :=
  ⟨rfl, rfl, rfl, rfl, rfl, rfl, rfl, rfl, rfl⟩

/-- C7: any config with `overlap ≥ max_chunk_size` makes `segment` fail
with `ConfigError` on every input text. -/
theorem segment_configError (text : List Char) (maxChunk overlap : Nat)
    (h : maxChunk ≤ overlap) :
    segment text maxChunk overlap = .error .configError := by
  simp [segment, h]

/-- C7 witness: `overlap = max_chunk_size = 3` is rejected. -/
theorem segment_configError_witness :
    segment ['a'] 3 3 = .error .configError :=
  segment_configError ['a'] 3 3 (by decide)

/-- C8: a successful upload returns `{pages, chunks}` (integer page and
chunk counts) and transitions the Session to `INDEXED`; the frontend reads
`response.data.pages` and `response.data.chunks` to build its confirmation
message and stores the response in `uploadInfo`. -/
theorem upload_success_result
    (s : Session) (text : List Char) (pages maxChunk overlap : Nat)
    (pageOf : Nat → Nat) (embed : List Char → Except RagError (List ℚ))
    (chunks : List (List Char)) (vecs : List (List ℚ))
    (fs : AppState) (f : String) (resp : UploadResponse)
    (hseg : segment text maxChunk overlap = .ok chunks)
    (hemb : embedAll embed chunks = .ok vecs)
    (hfile : fs.file = some f) :
    (uploadSession s text pages maxChunk overlap pageOf embed).2
        = .ok ⟨pages, chunks.length⟩ ∧
    (∃ doc, (uploadSession s text pages maxChunk overlap pageOf embed).1
        = Session.indexed doc) ∧
    (handleUpload fs (.success resp)).1.pdfUploaded = true ∧
    (handleUpload fs (.success resp)).1.uploadInfo = some resp ∧
    (handleUpload fs (.success resp)).1.messages
        = [⟨.system, confirmMessage resp.pages resp.chunks, none⟩] := by
  refine ⟨?_, ?_, ?_, ?_, ?_⟩
  · simp [uploadSession, hseg, hemb]
  · simp [uploadSession, hseg, hemb]
  · simp [handleUpload, hfile]
  · simp [handleUpload, hfile]
  · simp [handleUpload, hfile]

/-- C8 witness: a 3-page document chunked into 2 chunks reports
`{pages := 3, chunks := 2}`. -/
theorem upload_success_result_witness :
    (uploadSession Session.empty ['a', 'b', 'c', 'd', 'e'] 3 3 1 (fun _ => 1)
        (fun _ => .ok [(1 : ℚ)])).2 = .ok ⟨3, 2⟩ :=
  (upload_success_result Session.empty ['a', 'b', 'c', 'd', 'e'] 3 3 1 (fun _ => 1)
      (fun _ => .ok [(1 : ℚ)]) [['a', 'b', 'c'], ['c', 'd', 'e']] [[1], [1]]
      { initialAppState with file := some "doc.pdf" } "doc.pdf"
      ⟨"doc.pdf", 3, 5⟩ rfl rfl rfl).1

/-- C9: a blank (empty or whitespace-only) submitted question makes the ask
handler return silently: no request, no alert, state unchanged; the submit
button is disabled for such input. -/
theorem blank_question_no_request (s : AppState) (o : AskOutcome)
    (h : jsTrim s.question = "") :
    handleAskQuestion s o = (s, [], false) ∧ askSubmitDisabled s = true := by
  constructor
  · simp [handleAskQuestion, h]
  · simp [askSubmitDisabled, h]

/-- C9 witness: a whitespace-only question with a PDF uploaded is still
ignored. -/
theorem blank_question_no_request_witness :
    handleAskQuestion { initialAppState with question := "  ", pdfUploaded := true }
        (.failure "x")
      = ({ initialAppState with question := "  ", pdfUploaded := true }, [], false) :=
  (blank_question_no_request
    { initialAppState with question := "  ", pdfUploaded := true }
    (.failure "x") (by decide)).1

/-- C10: whenever `pdfUploaded` is true, the file-selection input and the
upload button are both disabled, so the UI cannot initiate a second upload
before a reset. -/
theorem uploaded_blocks_reupload (s : AppState) (h : s.pdfUploaded = true) :
    fileInputDisabled s = true ∧ uploadButtonDisabled s = true := by
  constructor
  · simp [fileInputDisabled, h]
  · simp [uploadButtonDisabled, h]

/-- C10 witness: the state right after a successful upload has both
controls disabled. -/
theorem uploaded_blocks_reupload_witness :
    fileInputDisabled { initialAppState with pdfUploaded := true } = true ∧
    uploadButtonDisabled { initialAppState with pdfUploaded := true } = true :=
  uploaded_blocks_reupload { initialAppState with pdfUploaded := true } rfl

end PdfQa
